import Mathlib

/-!
Shallow embedding of `src/Net/src/DNS.cpp` (Poco 1.3 Net, module DNS):
the caching resolver `DNS::hostByName` / `DNS::hostByAddress` /
`DNS::resolve` / `DNS::resolveOne` / `DNS::flushCache` and the error
translator `DNS::error`.

Modelling choices, each tied to the source:
* The OS resolver is the external collaborator of spec section 6.  The
  source calls `gethostbyname`/`getaddrinfo` (forward), `getnameinfo`
  (reverse) and reads the platform code with `lastError()` after a
  failing call; we fold the call-then-read-errno pattern into
  `Except Int` results.  The `HostEntry(hostent*)` / `HostEntry(addrinfo*)`
  constructors live outside `src/`, so a successful forward lookup
  directly delivers the constructed `HostEntry`.
* `DNS::hostByAddress` is compiled from two preprocessor branches; we
  embed the `_WIN32 && POCO_HAVE_IPv6` branch (DNS.cpp lines 125-147),
  the reverse-then-forward configuration the specification describes.
* The cache is `std::map<std::string, HostEntry>`; `std::map::insert`
  does not overwrite an existing key and reports the stored mapping, so
  `cacheInsert` is insert-if-absent returning the surviving entry.
* Every operation records a trace of events (mutex acquire/release,
  cache accesses, OS calls) so that call-counting and lock-discipline
  sentences of the spec can be stated.  `FastMutex::ScopedLock` releases
  at scope exit even when an exception propagates, so every trace ends
  with a release.
-/

/-- An IP address as the resolver sees it: the source only ever passes it
through to the OS collaborator or formats it with `toString()`, so the
textual form is the whole observable content. -/
structure IPAddress where
  text : String
deriving Repr, DecidableEq

/-- `IPAddress::toString()`. -/
def IPAddress.asString (a : IPAddress) : String :=
  a.text

/-- `Poco::Net::HostEntry`: canonical name, aliases, addresses
(DNS.h / HostEntry, constructed from the raw OS record). -/
structure HostEntry where
  name : String
  aliases : List String
  addresses : List IPAddress
deriving Repr, DecidableEq

/-- The exceptions thrown by DNS.cpp: `NetException`,
`HostNotFoundException`, `DNSException(msg, arg)`,
`NoAddressFoundException`, `Poco::IOException`. -/
inductive NetError where
  | netException (msg : String)
  | hostNotFound (arg : String)
  | dnsError (msg : String) (arg : String)
  | noAddressFound (arg : String)
  | ioException (msg : String)
deriving Repr, DecidableEq

/-- Observable events of one resolver call: mutex operations
(`FastMutex::ScopedLock` on `DNS::_mutex`), cache operations on
`DNS::_cache`, and calls into the OS resolver collaborator. -/
inductive Event where
  | lockAcquire
  | lockRelease
  | cacheFound (key : String)
  | cacheInsert (key : String)
  | osForward (name : String)
  | osReverse (addr : IPAddress)
deriving Repr, DecidableEq

/-- `DNS::DNSCache = std::map<std::string, HostEntry>`, as an association
list (first binding for a key wins, matching the map's insert-if-absent
discipline below). -/
abbrev DNSCache : Type :=
  List (String × HostEntry)

/-- `_cache.find(key)` (std::map::find). -/
def cacheFind : DNSCache → String → Option HostEntry
  | [], _ => none
  | (k, e) :: rest, key => if k = key then some e else cacheFind rest key

/-- `_cache.insert(make_pair(key, entry))` followed by `res.first->second`:
std::map::insert leaves an existing mapping in place and hands back the
entry now stored under the key. -/
def cacheInsert (c : DNSCache) (key : String) (e : HostEntry) :
    DNSCache × HostEntry :=
  match cacheFind c key with
  | some old => (c, old)
  | none => ((key, e) :: c, e)

/-- The external OS resolver collaborator (spec section 6): forward
lookup (`gethostbyname`/`getaddrinfo` plus `HostEntry` construction),
reverse lookup (`getnameinfo`, yielding the canonical name), and
`IPAddress::tryParse`.  A failure carries the platform error code that
`DNS::lastError()` would read. -/
structure OsApi where
  forwardLookup : String → Except Int HostEntry
  reverseLookup : IPAddress → Except Int String
  tryParse : String → Option IPAddress

instance {ε α : Type} [DecidableEq ε] [DecidableEq α] :
    DecidableEq (Except ε α) := fun x y =>
  match x, y with
  | Except.ok a, Except.ok b => decidable_of_iff (a = b) (by simp)
  | Except.ok _, Except.error _ => isFalse (by simp)
  | Except.error _, Except.ok _ => isFalse (by simp)
  | Except.error a, Except.error b => decidable_of_iff (a = b) (by simp)

/-- Outcome of one resolver operation: the returned entry or the raised
exception, the cache afterwards, and the event trace. -/
structure DnsOutcome where
  result : Except NetError HostEntry
  cache : DNSCache
  trace : List Event
deriving Repr, DecidableEq

/-- Modelled from the spec: the numeric values of the platform codes
`POCO_ESYSNOTREADY`, `POCO_ENOTINIT`, `POCO_HOST_NOT_FOUND`,
`POCO_TRY_AGAIN`, `POCO_NO_RECOVERY`, `POCO_NO_DATA` come from a
platform-definitions header that is not under `src/`; the error
translator only relies on the case labels being pairwise distinct, which
the concrete values used here (the WinSock and netdb ones) are. -/
def POCO_ESYSNOTREADY : Int := 10091

/-- Modelled from the spec: see `POCO_ESYSNOTREADY`. -/
def POCO_ENOTINIT : Int := 10093

/-- Modelled from the spec: see `POCO_ESYSNOTREADY`. -/
def POCO_HOST_NOT_FOUND : Int := 1

/-- Modelled from the spec: see `POCO_ESYSNOTREADY`. -/
def POCO_TRY_AGAIN : Int := 2

/-- Modelled from the spec: see `POCO_ESYSNOTREADY`. -/
def POCO_NO_RECOVERY : Int := 3

/-- Modelled from the spec: see `POCO_ESYSNOTREADY`. -/
def POCO_NO_DATA : Int := 4

/-- `DNS::error(code, arg)` (DNS.cpp lines 216-235): the switch.  The
C++ function has return type `void` and throws from every branch; we
model "throws e" as `some e`, so a hypothetical fall-through return
would be `none`.  `NumberFormatter::format(code)` is decimal
formatting, i.e. `toString`. -/
def DNS.errorRaised (code : Int) (arg : String) : Option NetError :=
  if code = POCO_ESYSNOTREADY then
    some (NetError.netException "Net subsystem not ready")
  else if code = POCO_ENOTINIT then
    some (NetError.netException "Net subsystem not initialized")
  else if code = POCO_HOST_NOT_FOUND then
    some (NetError.hostNotFound arg)
  else if code = POCO_TRY_AGAIN then
    some (NetError.dnsError "Temporary DNS error while resolving" arg)
  else if code = POCO_NO_RECOVERY then
    some (NetError.dnsError "Non recoverable DNS error while resolving" arg)
  else if code = POCO_NO_DATA then
    some (NetError.noAddressFound arg)
  else
    some (NetError.ioException (toString code))

/-- The `throw NetException(); // to silence compiler` at DNS.cpp lines
117 and 157: a default-constructed `NetException`, reached only if
`DNS::error` were to return normally. -/
def silenceCompilerThrow : NetError :=
  NetError.netException ""

/-- `error(code, arg)` as observed by the caller of
`hostByName`/`hostByAddress`: the exception `error` throws, or, were the
switch ever to fall through, the trailing silence-the-compiler throw. -/
def DNS.errorOrSilence (code : Int) (arg : String) : NetError :=
  match DNS.errorRaised code arg with
  | some e => e
  | none => silenceCompilerThrow

/-- `DNS::hostByName` (DNS.cpp lines 85-118): take the mutex for the
whole body, look the name up in the cache, on a hit return the stored
entry, on a miss do the OS forward lookup; on success insert under
`hostname` and return the stored entry, on failure raise
`error(lastError(), hostname)`. -/
def DNS.hostByName (os : OsApi) (c : DNSCache) (hostname : String) :
    DnsOutcome :=
  match cacheFind c hostname with
  | some entry =>
      ⟨Except.ok entry, c,
        [Event.lockAcquire, Event.cacheFound hostname, Event.lockRelease]⟩
  | none =>
      match os.forwardLookup hostname with
      | Except.ok he =>
          let ins := cacheInsert c hostname he
          ⟨Except.ok ins.2, ins.1,
            [Event.lockAcquire, Event.cacheFound hostname,
             Event.osForward hostname, Event.cacheInsert hostname,
             Event.lockRelease]⟩
      | Except.error code =>
          ⟨Except.error (DNS.errorOrSilence code hostname), c,
            [Event.lockAcquire, Event.cacheFound hostname,
             Event.osForward hostname, Event.lockRelease]⟩

/-- `DNS::hostByAddress` (DNS.cpp lines 121-158, `_WIN32 &&
POCO_HAVE_IPv6` branch, lines 125-147): take the mutex for the whole
body, reverse-resolve the address to a canonical name `fqname`
(`getnameinfo`); on reverse failure raise
`error(lastError(), address.toString())`.  On success look `fqname` up
in the cache: on a hit return the stored entry, on a miss forward-
resolve `fqname` (`getaddrinfo`), insert the result under `fqname` and
return the stored entry; if that forward lookup fails, fall through to
`error(lastError(), address.toString())`. -/
def DNS.hostByAddress (os : OsApi) (c : DNSCache) (address : IPAddress) :
    DnsOutcome :=
  match os.reverseLookup address with
  | Except.ok fqname =>
      match cacheFind c fqname with
      | some entry =>
          ⟨Except.ok entry, c,
            [Event.lockAcquire, Event.osReverse address,
             Event.cacheFound fqname, Event.lockRelease]⟩
      | none =>
          match os.forwardLookup fqname with
          | Except.ok he =>
              let ins := cacheInsert c fqname he
              ⟨Except.ok ins.2, ins.1,
                [Event.lockAcquire, Event.osReverse address,
                 Event.cacheFound fqname, Event.osForward fqname,
                 Event.cacheInsert fqname, Event.lockRelease]⟩
          | Except.error code =>
              ⟨Except.error (DNS.errorOrSilence code address.asString), c,
                [Event.lockAcquire, Event.osReverse address,
                 Event.cacheFound fqname, Event.osForward fqname,
                 Event.lockRelease]⟩
  | Except.error code =>
      ⟨Except.error (DNS.errorOrSilence code address.asString), c,
        [Event.lockAcquire, Event.osReverse address, Event.lockRelease]⟩

/-- `DNS::resolve` (DNS.cpp lines 161-168): `IPAddress::tryParse`
decides the path. -/
def DNS.resolve (os : OsApi) (c : DNSCache) (address : String) :
    DnsOutcome :=
  match os.tryParse address with
  | some ip => DNS.hostByAddress os c ip
  | none => DNS.hostByName os c address

/-- `DNS::resolveOne` (DNS.cpp lines 171-178): resolve, then the first
address of a non-empty list, else throw
`NoAddressFoundException(address)`; an exception from `resolve`
propagates. -/
def DNS.resolveOne (os : OsApi) (c : DNSCache) (address : String) :
    Except NetError IPAddress × DNSCache :=
  let r := DNS.resolve os c address
  match r.result with
  | Except.error e => (Except.error e, r.cache)
  | Except.ok entry =>
      match entry.addresses with
      | a :: _ => (Except.ok a, r.cache)
      | [] => (Except.error (NetError.noAddressFound address), r.cache)

/-- `DNS::flushCache` (DNS.cpp lines 187-192): `_cache.clear()` under
the mutex. -/
def DNS.flushCache (_c : DNSCache) : DNSCache :=
  []

/-- Is the event a call into the OS resolver collaborator? -/
def Event.isOsCall : Event → Bool
  | Event.osForward _ => true
  | Event.osReverse _ => true
  | _ => false

/-- Number of OS resolver invocations recorded in a trace. -/
def osCallCount (tr : List Event) : Nat :=
  (tr.filter Event.isOsCall).length

/-- Does every OS call in the trace happen while the mutex is held
(lock depth positive at the call)? -/
def osCallsUnderLock : List Event → Nat → Bool
  | [], _ => true
  | Event.lockAcquire :: rest, depth => osCallsUnderLock rest (depth + 1)
  | Event.lockRelease :: rest, depth => osCallsUnderLock rest (depth - 1)
  | Event.osForward _ :: rest, depth =>
      decide (0 < depth) && osCallsUnderLock rest depth
  | Event.osReverse _ :: rest, depth =>
      decide (0 < depth) && osCallsUnderLock rest depth
  | _ :: rest, depth => osCallsUnderLock rest depth

/-- Does every OS call in the trace happen while the mutex is NOT held
(lock depth zero at the call)?  This is the discipline the specification
asserts: check cache under the lock, call the OS resolver unlocked,
insert under the lock. -/
def osCallsOutsideLock : List Event → Nat → Bool
  | [], _ => true
  | Event.lockAcquire :: rest, depth => osCallsOutsideLock rest (depth + 1)
  | Event.lockRelease :: rest, depth => osCallsOutsideLock rest (depth - 1)
  | Event.osForward _ :: rest, depth =>
      decide (depth = 0) && osCallsOutsideLock rest depth
  | Event.osReverse _ :: rest, depth =>
      decide (depth = 0) && osCallsOutsideLock rest depth
  | _ :: rest, depth => osCallsOutsideLock rest depth

/-- Every entry stored in the cache has a non-empty address list. -/
def cacheAddressesNonEmpty (c : DNSCache) : Prop :=
  ∀ k e, cacheFind c k = some e → e.addresses ≠ []

/-- Fixture: an entry with two addresses, as the OS resolver would
deliver for a name with an A-record pair. -/
def entryA : HostEntry :=
  ⟨"a.example", ["alias.example"], [⟨"192.0.2.10"⟩, ⟨"192.0.2.11"⟩]⟩

/-- Fixture: an entry the OS resolver delivers with an empty address
list (nominally successful lookup with no usable addresses). -/
def entryNoAddrs : HostEntry :=
  ⟨"empty.example", [], []⟩

/-- Fixture OS collaborator: forward lookup knows `a.example` (two
addresses) and `empty.example` (no addresses) and fails with
`HOST_NOT_FOUND` otherwise; reverse lookup maps `192.0.2.10` to
`a.example`; only `192.0.2.10` parses as a literal address. -/
def osFixture : OsApi where
  forwardLookup := fun n =>
    if n = "a.example" then Except.ok entryA
    else if n = "empty.example" then Except.ok entryNoAddrs
    else Except.error POCO_HOST_NOT_FOUND
  reverseLookup := fun a =>
    if a = ⟨"192.0.2.10"⟩ then Except.ok "a.example"
    else Except.error POCO_HOST_NOT_FOUND
  tryParse := fun s =>
    if s = "192.0.2.10" then some ⟨"192.0.2.10"⟩ else none

/-- Fixture OS collaborator whose forward lookup always succeeds with
`entryA` (a non-empty address list). -/
def osAlwaysA : OsApi where
  forwardLookup := fun _ => Except.ok entryA
  reverseLookup := fun _ => Except.ok "a.example"
  tryParse := fun _ => none

/-- The switch in `DNS::error` never produces the default-constructed
`NetException` used by the trailing silence-the-compiler throws. -/
theorem errorOrSilence_ne_silence (code : Int) (arg : String) :
    DNS.errorOrSilence code arg ≠ silenceCompilerThrow := by
  unfold DNS.errorOrSilence DNS.errorRaised silenceCompilerThrow
  split_ifs <;> simp

/-- C2: `resolve(input)` delegates to `hostByAddress` exactly when
`input` parses as a literal IP address, and to `hostByName` otherwise;
the outcome is exactly that of the chosen path. -/
theorem C2_resolve_routing (os : OsApi) (c : DNSCache) (input : String) :
    (∀ ip, os.tryParse input = some ip →
      DNS.resolve os c input = DNS.hostByAddress os c ip) ∧
    (os.tryParse input = none →
      DNS.resolve os c input = DNS.hostByName os c input) := by
  constructor
  · intro ip h
    simp [DNS.resolve, h]
  · intro h
    simp [DNS.resolve, h]

/-- C2 witness: with the fixture collaborator, `"192.0.2.10"` parses and
routes to the reverse path, `"example.invalid"` does not parse and
routes to the forward path. -/
theorem C2_resolve_routing_witness :
    DNS.resolve osFixture [] "192.0.2.10"
      = DNS.hostByAddress osFixture [] ⟨"192.0.2.10"⟩ ∧
    DNS.resolve osFixture [] "example.invalid"
      = DNS.hostByName osFixture [] "example.invalid" :=
  ⟨(C2_resolve_routing osFixture [] "192.0.2.10").1 ⟨"192.0.2.10"⟩
      (by decide),
   (C2_resolve_routing osFixture [] "example.invalid").2 (by decide)⟩

/-- C3: each platform code in the fixed table is translated to exactly
the documented exception kind, and any code outside the table is
translated to a generic `IOException` carrying the decimal rendering of
the raw code. -/
theorem C3_error_translation_table (arg : String) (code : Int) :
    DNS.errorRaised POCO_ESYSNOTREADY arg
      = some (NetError.netException "Net subsystem not ready") ∧
    DNS.errorRaised POCO_ENOTINIT arg
      = some (NetError.netException "Net subsystem not initialized") ∧
    DNS.errorRaised POCO_HOST_NOT_FOUND arg
      = some (NetError.hostNotFound arg) ∧
    DNS.errorRaised POCO_TRY_AGAIN arg
      = some (NetError.dnsError "Temporary DNS error while resolving" arg) ∧
    DNS.errorRaised POCO_NO_RECOVERY arg
      = some (NetError.dnsError "Non recoverable DNS error while resolving" arg) ∧
    DNS.errorRaised POCO_NO_DATA arg
      = some (NetError.noAddressFound arg) ∧
    (code ≠ POCO_ESYSNOTREADY → code ≠ POCO_ENOTINIT →
     code ≠ POCO_HOST_NOT_FOUND → code ≠ POCO_TRY_AGAIN →
     code ≠ POCO_NO_RECOVERY → code ≠ POCO_NO_DATA →
     DNS.errorRaised code arg
       = some (NetError.ioException (toString code))) := by
  refine ⟨?_, ?_, ?_, ?_, ?_, ?_, ?_⟩
  · simp [DNS.errorRaised]
  · simp [DNS.errorRaised, POCO_ENOTINIT, POCO_ESYSNOTREADY]
  · simp [DNS.errorRaised, POCO_HOST_NOT_FOUND, POCO_ESYSNOTREADY,
      POCO_ENOTINIT]
  · simp [DNS.errorRaised, POCO_TRY_AGAIN, POCO_ESYSNOTREADY, POCO_ENOTINIT,
      POCO_HOST_NOT_FOUND]
  · simp [DNS.errorRaised, POCO_NO_RECOVERY, POCO_ESYSNOTREADY, POCO_ENOTINIT,
      POCO_HOST_NOT_FOUND, POCO_TRY_AGAIN]
  · simp [DNS.errorRaised, POCO_NO_DATA, POCO_ESYSNOTREADY, POCO_ENOTINIT,
      POCO_HOST_NOT_FOUND, POCO_TRY_AGAIN, POCO_NO_RECOVERY]
  · intro h1 h2 h3 h4 h5 h6
    simp [DNS.errorRaised, h1, h2, h3, h4, h5, h6]

/-- C3 witness: the unmapped code 9999 yields the generic `IOException`
carrying the code, and the mapped code `POCO_HOST_NOT_FOUND` yields
`HostNotFoundException`. -/
theorem C3_error_translation_table_witness :
    DNS.errorRaised 9999 "w.example"
      = some (NetError.ioException (toString (9999 : Int))) ∧
    DNS.errorRaised POCO_HOST_NOT_FOUND "w.example"
      = some (NetError.hostNotFound "w.example") :=
  ⟨(C3_error_translation_table "w.example" 9999).2.2.2.2.2.2
      (by decide) (by decide) (by decide) (by decide) (by decide) (by decide),
   (C3_error_translation_table "w.example" 9999).2.2.1⟩

/-- C7: `flushCache` empties the cache, and a `hostByName` issued on the
flushed cache performs exactly one OS resolver call, whatever was cached
before the flush. -/
theorem C7_flush_then_single_os_call (os : OsApi) (c : DNSCache)
    (n : String) :
    DNS.flushCache c = ([] : DNSCache) ∧
    osCallCount (DNS.hostByName os (DNS.flushCache c) n).trace = 1 := by
  refine ⟨rfl, ?_⟩
  cases hos : os.forwardLookup n <;>
    simp [DNS.hostByName, DNS.flushCache, cacheFind, cacheInsert, hos,
      osCallCount, Event.isOsCall, List.filter]

/-- C10: every branch of the switch in `DNS::error` throws (the
translator never returns normally), so the trailing
`throw NetException()` lines of `hostByName` and `hostByAddress` are
unreachable: no call ever surfaces the default-constructed sentinel
exception. -/
theorem C10_error_never_returns :
    (∀ (code : Int) (arg : String), (DNS.errorRaised code arg).isSome = true) ∧
    (∀ (os : OsApi) (c : DNSCache) (n : String),
      (DNS.hostByName os c n).result ≠ Except.error silenceCompilerThrow) ∧
    (∀ (os : OsApi) (c : DNSCache) (a : IPAddress),
      (DNS.hostByAddress os c a).result ≠ Except.error silenceCompilerThrow) := by
  refine ⟨?_, ?_, ?_⟩
  · intro code arg
    unfold DNS.errorRaised
    split_ifs <;> rfl
  · intro os c n
    cases h1 : cacheFind c n with
    | some e => simp [DNS.hostByName, h1]
    | none =>
      cases h2 : os.forwardLookup n with
      | ok he => simp [DNS.hostByName, h1, h2]
      | error code =>
        simp only [DNS.hostByName, h1, h2]
        intro h
        exact errorOrSilence_ne_silence code n (by injection h)
  · intro os c a
    cases h1 : os.reverseLookup a with
    | ok fq =>
      cases h2 : cacheFind c fq with
      | some e => simp [DNS.hostByAddress, h1, h2]
      | none =>
        cases h3 : os.forwardLookup fq with
        | ok he => simp [DNS.hostByAddress, h1, h2, h3]
        | error code =>
          simp only [DNS.hostByAddress, h1, h2, h3]
          intro h
          exact errorOrSilence_ne_silence code a.asString (by injection h)
    | error code =>
      simp only [DNS.hostByAddress, h1]
      intro h
      exact errorOrSilence_ne_silence code a.asString (by injection h)

/-- C1: when the reverse lookup succeeds with canonical name `cn`,
`hostByAddress` keys the cache by `cn`: a cached `cn` is returned as-is
with no forward OS call at all, and an uncached `cn` whose forward
lookup succeeds is resolved forward, stored under `cn`, and returned. -/
theorem C1_hostByAddress_canonical_key (os : OsApi) (c : DNSCache)
    (a : IPAddress) (cn : String)
    (hrev : os.reverseLookup a = Except.ok cn) :
    (∀ e, cacheFind c cn = some e →
      (DNS.hostByAddress os c a).result = Except.ok e ∧
      (DNS.hostByAddress os c a).cache = c ∧
      ∀ s, Event.osForward s ∉ (DNS.hostByAddress os c a).trace) ∧
    (cacheFind c cn = none →
      ∀ he, os.forwardLookup cn = Except.ok he →
        (DNS.hostByAddress os c a).result = Except.ok he ∧
        cacheFind (DNS.hostByAddress os c a).cache cn = some he ∧
        Event.osForward cn ∈ (DNS.hostByAddress os c a).trace) := by
  constructor
  · intro e hhit
    simp [DNS.hostByAddress, hrev, hhit]
  · intro hmiss he hfwd
    simp [DNS.hostByAddress, hrev, hmiss, hfwd, cacheInsert, cacheFind]

/-- C1 witness: for the fixture, reverse-resolving `192.0.2.10` finds
`a.example` already cached and returns it without any forward OS call. -/
theorem C1_hostByAddress_canonical_key_witness :
    (DNS.hostByAddress osFixture [("a.example", entryA)] ⟨"192.0.2.10"⟩).result
      = Except.ok entryA ∧
    ∀ s, Event.osForward s ∉
      (DNS.hostByAddress osFixture [("a.example", entryA)] ⟨"192.0.2.10"⟩).trace :=
  have h :=
    (C1_hostByAddress_canonical_key osFixture [("a.example", entryA)]
      ⟨"192.0.2.10"⟩ "a.example" (by decide)).1 entryA (by decide)
  ⟨h.1, h.2.2⟩

/-- C4: after a first `hostByName n` on a cache without `n` whose OS
lookup succeeds, a second `hostByName n` returns the entry stored by the
first call with zero OS calls and an unchanged cache; moreover any cache
hit returns the stored entry and never raises. -/
theorem C4_second_lookup_cached (os : OsApi) (c : DNSCache) (n : String)
    (he : HostEntry) (hmiss : cacheFind c n = none)
    (hos : os.forwardLookup n = Except.ok he) :
    ((DNS.hostByName os c n).result = Except.ok he ∧
     (DNS.hostByName os (DNS.hostByName os c n).cache n).result
       = Except.ok he ∧
     osCallCount (DNS.hostByName os (DNS.hostByName os c n).cache n).trace
       = 0 ∧
     (DNS.hostByName os (DNS.hostByName os c n).cache n).cache
       = (DNS.hostByName os c n).cache) ∧
    (∀ (c' : DNSCache) (k : String) (e : HostEntry),
      cacheFind c' k = some e →
      (DNS.hostByName os c' k).result = Except.ok e) := by
  constructor
  · refine ⟨?_, ?_, ?_, ?_⟩ <;>
      simp [DNS.hostByName, hmiss, hos, cacheInsert, cacheFind,
        osCallCount, Event.isOsCall, List.filter]
  · intro c' k e hhit
    simp [DNS.hostByName, hhit]

/-- C4 witness: resolving `a.example` twice from an empty cache with the
fixture collaborator returns the same entry, the second time with zero
OS calls. -/
theorem C4_second_lookup_cached_witness :
    (DNS.hostByName osFixture [] "a.example").result = Except.ok entryA ∧
    (DNS.hostByName osFixture (DNS.hostByName osFixture [] "a.example").cache
        "a.example").result = Except.ok entryA ∧
    osCallCount (DNS.hostByName osFixture
        (DNS.hostByName osFixture [] "a.example").cache "a.example").trace
      = 0 :=
  have h := (C4_second_lookup_cached osFixture [] "a.example" entryA
    (by decide) (by decide)).1
  ⟨h.1, h.2.1, h.2.2.1⟩

/-- C5: a failed forward lookup makes `hostByName` raise the typed error
translated from the platform code and the original name and leaves the
cache unchanged, and a failed reverse lookup makes `hostByAddress` raise
the typed error translated from the platform code and the address's
string form and leaves the cache unchanged; neither path ever returns an
entry. -/
theorem C5_failure_typed_error_cache_unchanged (os : OsApi) (c : DNSCache)
    (n : String) (a : IPAddress) (code codeR : Int) :
    (cacheFind c n = none → os.forwardLookup n = Except.error code →
      (DNS.hostByName os c n).result
        = Except.error (DNS.errorOrSilence code n) ∧
      (DNS.hostByName os c n).cache = c) ∧
    (os.reverseLookup a = Except.error codeR →
      (DNS.hostByAddress os c a).result
        = Except.error (DNS.errorOrSilence codeR a.asString) ∧
      (DNS.hostByAddress os c a).cache = c) := by
  constructor
  · intro hmiss hfail
    simp [DNS.hostByName, hmiss, hfail]
  · intro hfail
    simp [DNS.hostByAddress, hfail]

/-- C5 witness: with the fixture, `hostByName "nx.example"` raises
`HostNotFoundException("nx.example")` leaving the cache empty, and
`hostByAddress 203.0.113.5` raises
`HostNotFoundException("203.0.113.5")` leaving the cache empty. -/
theorem C5_failure_typed_error_cache_unchanged_witness :
    (DNS.hostByName osFixture [] "nx.example").result
      = Except.error (DNS.errorOrSilence POCO_HOST_NOT_FOUND "nx.example") ∧
    (DNS.hostByName osFixture [] "nx.example").cache = ([] : DNSCache) ∧
    (DNS.hostByAddress osFixture [] ⟨"203.0.113.5"⟩).result
      = Except.error
          (DNS.errorOrSilence POCO_HOST_NOT_FOUND
            (IPAddress.asString ⟨"203.0.113.5"⟩)) ∧
    (DNS.hostByAddress osFixture [] ⟨"203.0.113.5"⟩).cache = ([] : DNSCache) :=
  have h := C5_failure_typed_error_cache_unchanged osFixture []
    "nx.example" ⟨"203.0.113.5"⟩ POCO_HOST_NOT_FOUND POCO_HOST_NOT_FOUND
  have h1 := h.1 (by decide) (by decide)
  have h2 := h.2 (by decide)
  ⟨h1.1, h1.2, h2.1, h2.2⟩

/-- C6: `resolveOne` forwards to `resolve` and returns the first address
of the resulting entry when the address list is non-empty, and raises
`NoAddressFoundException(input)` when the list is empty. -/
theorem C6_resolveOne_first_address (os : OsApi) (c : DNSCache)
    (input : String) :
    (∀ e a rest, (DNS.resolve os c input).result = Except.ok e →
      e.addresses = a :: rest →
      (DNS.resolveOne os c input).1 = Except.ok a) ∧
    (∀ e, (DNS.resolve os c input).result = Except.ok e →
      e.addresses = [] →
      (DNS.resolveOne os c input).1
        = Except.error (NetError.noAddressFound input)) := by
  constructor
  · intro e a rest h ha
    simp [DNS.resolveOne, h, ha]
  · intro e h ha
    simp [DNS.resolveOne, h, ha]

/-- C6 witness: resolving `a.example` (addresses `[192.0.2.10,
192.0.2.11]`) yields its first address, and resolving `empty.example`
(no addresses) raises `NoAddressFoundException("empty.example")`. -/
theorem C6_resolveOne_first_address_witness :
    (DNS.resolveOne osFixture [] "a.example").1
      = Except.ok ⟨"192.0.2.10"⟩ ∧
    (DNS.resolveOne osFixture [] "empty.example").1
      = Except.error (NetError.noAddressFound "empty.example") :=
  ⟨(C6_resolveOne_first_address osFixture [] "a.example").1 entryA
      ⟨"192.0.2.10"⟩ [⟨"192.0.2.11"⟩] (by decide) (by decide),
   (C6_resolveOne_first_address osFixture [] "empty.example").2 entryNoAddrs
      (by decide) (by decide)⟩

/-- `hostByName` preserves the non-empty-addresses cache invariant and
returns a non-empty-addresses entry, provided the OS collaborator only
delivers entries with non-empty address lists. -/
theorem hostByName_keeps_nonempty (os : OsApi)
    (hos : ∀ n he, os.forwardLookup n = Except.ok he → he.addresses ≠ [])
    (c : DNSCache) (hc : cacheAddressesNonEmpty c) (n : String) :
    (∀ e, (DNS.hostByName os c n).result = Except.ok e →
      e.addresses ≠ []) ∧
    cacheAddressesNonEmpty (DNS.hostByName os c n).cache := by
  cases h1 : cacheFind c n with
  | some entry =>
    refine ⟨?_, ?_⟩
    · intro e hres
      simp only [DNS.hostByName, h1, Except.ok.injEq] at hres
      subst hres
      exact hc n entry h1
    · simpa only [DNS.hostByName, h1] using hc
  | none =>
    cases h2 : os.forwardLookup n with
    | ok he =>
      refine ⟨?_, ?_⟩
      · intro e hres
        simp only [DNS.hostByName, h1, h2, cacheInsert,
          Except.ok.injEq] at hres
        subst hres
        exact hos n he h2
      · intro k e hk
        simp only [DNS.hostByName, h1, h2, cacheInsert] at hk
        rw [cacheFind] at hk
        by_cases hnk : n = k
        · rw [if_pos hnk] at hk
          injection hk with hk
          subst hk
          exact hos n he h2
        · rw [if_neg hnk] at hk
          exact hc k e hk
    | error code =>
      refine ⟨?_, ?_⟩
      · intro e hres
        simp [DNS.hostByName, h1, h2] at hres
      · simpa only [DNS.hostByName, h1, h2] using hc

/-- `hostByAddress` preserves the non-empty-addresses cache invariant
and returns a non-empty-addresses entry, provided the OS collaborator
only delivers entries with non-empty address lists. -/
theorem hostByAddress_keeps_nonempty (os : OsApi)
    (hos : ∀ n he, os.forwardLookup n = Except.ok he → he.addresses ≠ [])
    (c : DNSCache) (hc : cacheAddressesNonEmpty c) (a : IPAddress) :
    (∀ e, (DNS.hostByAddress os c a).result = Except.ok e →
      e.addresses ≠ []) ∧
    cacheAddressesNonEmpty (DNS.hostByAddress os c a).cache := by
  cases h0 : os.reverseLookup a with
  | ok fq =>
    cases h1 : cacheFind c fq with
    | some entry =>
      refine ⟨?_, ?_⟩
      · intro e hres
        simp only [DNS.hostByAddress, h0, h1, Except.ok.injEq] at hres
        subst hres
        exact hc fq entry h1
      · simpa only [DNS.hostByAddress, h0, h1] using hc
    | none =>
      cases h2 : os.forwardLookup fq with
      | ok he =>
        refine ⟨?_, ?_⟩
        · intro e hres
          simp only [DNS.hostByAddress, h0, h1, h2, cacheInsert,
            Except.ok.injEq] at hres
          subst hres
          exact hos fq he h2
        · intro k e hk
          simp only [DNS.hostByAddress, h0, h1, h2, cacheInsert] at hk
          rw [cacheFind] at hk
          by_cases hfk : fq = k
          · rw [if_pos hfk] at hk
            injection hk with hk
            subst hk
            exact hos fq he h2
          · rw [if_neg hfk] at hk
            exact hc k e hk
      | error code =>
        refine ⟨?_, ?_⟩
        · intro e hres
          simp [DNS.hostByAddress, h0, h1, h2] at hres
        · simpa only [DNS.hostByAddress, h0, h1, h2] using hc
  | error code =>
    refine ⟨?_, ?_⟩
    · intro e hres
      simp [DNS.hostByAddress, h0] at hres
    · simpa only [DNS.hostByAddress, h0] using hc

/-- C8 counterexample: the fixture's forward lookup for
`empty.example` succeeds with an entry whose address list is empty, and
`hostByName` happily returns and caches that zero-address entry — the
code never checks the address list on the resolution paths, so a
successful resolution CAN produce and cache an entry with no
addresses. -/
theorem C8_counterexample_empty_entry_cached :
    (DNS.hostByName osFixture [] "empty.example").result
      = Except.ok entryNoAddrs ∧
    cacheFind (DNS.hostByName osFixture [] "empty.example").cache
      "empty.example" = some entryNoAddrs ∧
    entryNoAddrs.addresses = [] := by
  decide

/-- C8 amended: the resolver itself does not enforce non-emptiness — it
stores and returns exactly what the OS collaborator delivered.
Provided every successful OS forward result has a non-empty address
list and every cached entry has a non-empty address list, every entry
returned by `resolve` and every entry in the resulting cache has a
non-empty address list. -/
theorem C8_amended_nonempty_conditional (os : OsApi)
    (hos : ∀ n he, os.forwardLookup n = Except.ok he → he.addresses ≠ [])
    (c : DNSCache) (hc : cacheAddressesNonEmpty c) (input : String) :
    (∀ e, (DNS.resolve os c input).result = Except.ok e →
      e.addresses ≠ []) ∧
    cacheAddressesNonEmpty (DNS.resolve os c input).cache := by
  cases hp : os.tryParse input with
  | some ip =>
    have h := hostByAddress_keeps_nonempty os hos c hc ip
    simpa only [DNS.resolve, hp] using h
  | none =>
    have h := hostByName_keeps_nonempty os hos c hc input
    simpa only [DNS.resolve, hp] using h

/-- C8 amended witness: with a collaborator that always answers with
`entryA`, resolving from an empty cache yields a non-empty address list
and a cache in which every entry has a non-empty address list. -/
theorem C8_amended_nonempty_conditional_witness :
    entryA.addresses ≠ [] ∧
    cacheAddressesNonEmpty (DNS.resolve osAlwaysA [] "x.example").cache :=
  have h := C8_amended_nonempty_conditional osAlwaysA
    (by
      intro n he hok
      have hhe : entryA = he := by
        simpa [osAlwaysA] using hok
      subst hhe
      decide)
    []
    (by
      intro k e hk
      simp [cacheFind] at hk)
    "x.example"
  ⟨h.1 entryA (by decide), h.2⟩

/-- C9 counterexample: in the trace of a concrete `hostByName` call the
OS forward lookup is performed at lock depth 1 — the mutex is taken at
function entry and released at exit, so the discipline "OS call happens
outside the lock" is violated by the code. -/
theorem C9_counterexample_os_call_inside_lock :
    osCallsOutsideLock (DNS.hostByName osFixture [] "a.example").trace 0
      = false ∧
    Event.osForward "a.example"
      ∈ (DNS.hostByName osFixture [] "a.example").trace := by
  decide

/-- C9 amended: the exclusive lock is held for the whole of each
resolution — acquired as the first action, released as the last, and in
particular held across every OS resolver call — so OS queries through
this cache are serialized, not concurrent. -/
theorem C9_amended_lock_held_across_os_call (os : OsApi) (c : DNSCache)
    (n : String) (a : IPAddress) :
    osCallsUnderLock (DNS.hostByName os c n).trace 0 = true ∧
    osCallsUnderLock (DNS.hostByAddress os c a).trace 0 = true ∧
    (DNS.hostByName os c n).trace.head? = some Event.lockAcquire ∧
    (DNS.hostByName os c n).trace.getLast? = some Event.lockRelease ∧
    (DNS.hostByAddress os c a).trace.head? = some Event.lockAcquire ∧
    (DNS.hostByAddress os c a).trace.getLast? = some Event.lockRelease := by
  refine ⟨?_, ?_, ?_, ?_, ?_, ?_⟩ <;>
  · first
    | (cases h1 : cacheFind c n with
       | some e => simp [DNS.hostByName, h1, osCallsUnderLock]
       | none =>
         cases h2 : os.forwardLookup n <;>
           simp [DNS.hostByName, h1, h2, osCallsUnderLock])
    | (cases h0 : os.reverseLookup a with
       | ok fq =>
         cases h1 : cacheFind c fq with
         | some e => simp [DNS.hostByAddress, h0, h1, osCallsUnderLock]
         | none =>
           cases h2 : os.forwardLookup fq <;>
             simp [DNS.hostByAddress, h0, h1, h2, osCallsUnderLock]
       | error code => simp [DNS.hostByAddress, h0, osCallsUnderLock])
